import Mathlib

/-!
Shallow embedding of `fastai/conv_learner.py`.

The module builds a classifier head on top of a pretrained convolutional
backbone (`ConvnetBuilder`) and wraps it in a training-session object
(`ConvLearner`) that can precompute and cache backbone activations on disk.

Models and layers are embedded as lists of `Layer` values (a framework
`nn.Sequential` is its list of children).  The framework pieces that are
external collaborators (backbone construction, `num_features`, the bcolz
array store) are represented by parameters or by their observable state:
an on-disk activation array is represented by its row count.
-/

/-- The registered backbone identifiers: exactly the keys of `model_meta`. -/
inductive Arch
  | resnet18
  | resnet34
  | resnet50
  | resnet101
  | vgg16
  | resnext50
  | resnext101
  | resnext101_64
  | wrn
  | inceptionresnet_2
  | inception_4
  | dn121
  | dn161
  | dn169
  | dn201
deriving DecidableEq, Repr, Inhabited

/-- Table `model_meta`: backbone identifier to `(cut, lr_cut)`. -/
def model_meta : Arch → Int × Int
  | Arch.resnet18 => (8, 6)
  | Arch.resnet34 => (8, 6)
  | Arch.resnet50 => (8, 6)
  | Arch.resnet101 => (8, 6)
  | Arch.vgg16 => (0, 22)
  | Arch.resnext50 => (8, 6)
  | Arch.resnext101 => (8, 6)
  | Arch.resnext101_64 => (8, 6)
  | Arch.wrn => (8, 6)
  | Arch.inceptionresnet_2 => (-2, 9)
  | Arch.inception_4 => (-1, 9)
  | Arch.dn121 => (0, 6)
  | Arch.dn161 => (0, 6)
  | Arch.dn169 => (0, 6)
  | Arch.dn201 => (0, 6)

/-- Table `model_features`: explicit output feature widths for the backbones
that have an entry; `none` for every other backbone. -/
def model_features : Arch → Option Nat
  | Arch.inception_4 => some 3072
  | Arch.dn121 => some 1024
  | Arch.dn161 => some 4416
  | _ => none

/-- Activation modules used in the head: `nn.ReLU`, `nn.Sigmoid`,
`nn.LogSoftmax`. -/
inductive Actn
  | relu
  | sigmoid
  | logSoftmax
deriving DecidableEq, Repr, Inhabited

/-- A network module as it appears among the children of a `nn.Sequential`.
Opaque backbone children are `backboneMod` with an identity tag; dropout
probabilities are rationals (Python floats such as 0.25 are exact here). -/
inductive Layer
  | backboneMod (id : Nat)
  | adaptiveConcatPool2d
  | flatten
  | batchNorm1d (numFeatures : Nat)
  | dropout (p : Rat)
  | linear (inFeatures outFeatures : Nat)
  | act (a : Actn)
deriving DecidableEq, Repr, Inhabited

/-- The `ps` argument of `ConvnetBuilder.__init__`: Python `None`, a scalar
dropout rate, or a list of rates. -/
inductive PsArg
  | pnone
  | scalar (p : Rat)
  | list (l : List Rat)
deriving DecidableEq, Repr, Inhabited

/-- Python truthiness of the `ps` argument: `None`, `0`/`0.0` and `[]` are
falsy, everything else truthy. -/
def PsArg.falsy : PsArg → Bool
  | PsArg.pnone => true
  | PsArg.scalar p => p == 0
  | PsArg.list l => l.isEmpty

/-- Line `self.ps = ps or [0.25,0.5]`: a falsy argument is replaced by the
default list. -/
def resolvePs (ps : PsArg) : PsArg :=
  if ps.falsy then PsArg.list [1/4, 1/2] else ps

/-- Line `if not isinstance(self.ps, list): self.ps = [self.ps]*n_fc`:
a scalar rate is broadcast to one rate per head block.  (`pnone` cannot
reach this point: `resolvePs` never returns it.) -/
def broadcastPs (ps : PsArg) (n : Nat) : List Rat :=
  match ps with
  | PsArg.list l => l
  | PsArg.scalar p => List.replicate n p
  | PsArg.pnone => []

/-- Line `self.xtra_fc = xtra_fc or [512]`: Python `None` and `[]` are falsy
and replaced by the default `[512]`. -/
def resolveXfc (xtra_fc : Option (List Nat)) : List Nat :=
  match xtra_fc with
  | some l => if l.isEmpty then [512] else l
  | none => [512]

/-- `ConvnetBuilder.create_fc_layer`: builds one head block as a list of
modules, mirroring the imperative appends of the source (`if p:` is Python
truthiness of the rate, i.e. the rate is non-zero). -/
def create_fc_layer (ni nf : Nat) (p : Rat) (actn : Option Actn) : List Layer :=
  let res := [Layer.batchNorm1d ni]
  let res := if p ≠ 0 then res ++ [Layer.dropout p] else res
  let res := res ++ [Layer.linear ni nf]
  match actn with
  | some a => res ++ [Layer.act a]
  | none => res

/-- Loop body of `ConvnetBuilder.get_fc_layers`: `i` is the enumeration
index into `ps`, `ni` the running input width.  After the hidden blocks the
final block maps to `c` outputs with activation sigmoid (multi-label) or
log-softmax (classification), suppressed by `is_reg`. -/
def get_fc_layers_go (ps : List Rat) (is_multi is_reg : Bool) (c : Nat) :
    Nat → Nat → List Nat → List Layer
  | ni, _, [] =>
    let final_actn : Option Actn :=
      if is_reg then none
      else if is_multi then some Actn.sigmoid else some Actn.logSoftmax
    create_fc_layer ni c (ps.getLastD 0) final_actn
  | ni, i, nf :: rest =>
    create_fc_layer ni nf (ps.getD i 0) (some Actn.relu) ++
      get_fc_layers_go ps is_multi is_reg c nf (i + 1) rest

/-- `ConvnetBuilder.get_fc_layers`: the head, starting from input width
`nf`, one block per hidden width in `xtra_fc` plus the final block. -/
def get_fc_layers (nf : Nat) (xtra_fc : List Nat) (ps : List Rat)
    (is_multi is_reg : Bool) (c : Nat) : List Layer :=
  get_fc_layers_go ps is_multi is_reg c nf 0 xtra_fc

/-- The state of a `ConvnetBuilder` after `__init__`.  `top_model` is the
truncated backbone plus the pooling/flatten adapters; `model` is
`top_model ++ fc_model`; `n_fc` counts the individual head sublayers. -/
structure ConvnetBuilder where
  f : Arch
  c : Nat
  is_multi : Bool
  is_reg : Bool
  xtra_cut : Int
  ps : List Rat
  xtra_fc : List Nat
  lr_cut : Int
  nf : Nat
  top_model : List Layer
  n_fc : Nat
  fc_model : List Layer
  model : List Layer
deriving DecidableEq, Repr, Inhabited

/-- `ConvnetBuilder.__init__`.  The external pieces are parameters:
`layers` is the result of `cut_model(f(True), cut)` (the truncated backbone,
built by the framework) and `inferred` is `num_features(layers)`.  `to_gpu`
and weight initialisation do not change the module structure and are
dropped. -/
def ConvnetBuilder.build (f : Arch) (c : Nat) (is_multi is_reg : Bool)
    (ps : PsArg) (xtra_fc : Option (List Nat)) (xtra_cut : Int)
    (layers : List Layer) (inferred : Nat) : ConvnetBuilder :=
  let psArg := resolvePs ps
  let xfc := resolveXfc xtra_fc
  let lrCutV := (model_meta f).2
  let nfV := match model_features f with
    | some w => w
    | none => inferred * 2
  let top := layers ++ [Layer.adaptiveConcatPool2d, Layer.flatten]
  let nBlocks := xfc.length + 1
  let psL := broadcastPs psArg nBlocks
  let fc := get_fc_layers nfV xfc psL is_multi is_reg c
  { f := f, c := c, is_multi := is_multi, is_reg := is_reg, xtra_cut := xtra_cut,
    ps := psL, xtra_fc := xfc, lr_cut := lrCutV, nf := nfV, top_model := top,
    n_fc := fc.length, fc_model := fc, model := top ++ fc }

/-- Python index clamping for a slice bound on a sequence of length `n`:
negative indices count from the end, and bounds are clamped to `[0, n]`. -/
def pyClamp (n : Nat) (i : Int) : Nat :=
  if i < 0 then ((n : Int) + i).toNat else min i.toNat n

/-- Python slice `seq[a:b]`. -/
def pySlice {α : Type} (seq : List α) (a b : Int) : List α :=
  (seq.take (pyClamp seq.length b)).drop (pyClamp seq.length a)

/-- Python slice `seq[a:]`. -/
def pySliceFrom {α : Type} (seq : List α) (a : Int) : List α :=
  seq.drop (pyClamp seq.length a)

/-- Modelled from the spec: layer-group splitting.  `split_by_idxs(seq,
idxs)` (imported from the library core, not part of this file) yields the
successive Python slices `seq[last:idx]` with `last` starting at `0`, then
the tail `seq[last:]`; with `idxs=[a,b]` that is `seq[0:a]`, `seq[a:b]`,
`seq[b:]`, and with `idxs=[]` the single group `seq[0:]`. -/
def split_by_idxs_go {α : Type} (seq : List α) : Int → List Int → List (List α)
  | last, [] => [pySliceFrom seq last]
  | last, idx :: rest => pySlice seq last idx :: split_by_idxs_go seq idx rest

/-- Modelled from the spec: entry point of the layer-group splitter. -/
def split_by_idxs {α : Type} (seq : List α) (idxs : List Int) : List (List α) :=
  split_by_idxs_go seq 0 idxs

/-- `ConvnetBuilder.get_layer_groups`: head-only grouping uses the head's
children and no split indices; full-model grouping uses the whole model's
children split at `lr_cut` and at `n_fc` sublayers from the end. -/
def ConvnetBuilder.get_layer_groups (b : ConvnetBuilder) (do_fc : Bool) :
    List (List Layer) :=
  if do_fc then split_by_idxs b.fc_model []
  else split_by_idxs b.model [b.lr_cut, -(b.n_fc : Int)]

/-- Loss functions a `ConvLearner` can select. -/
inductive Crit
  | binary_cross_entropy
  | nll_loss
  | l1_loss
deriving DecidableEq, Repr, Inhabited

/-- Metrics: the two defaults plus user-supplied ones (tagged). -/
inductive Metric
  | accuracy_multi
  | accuracy
  | custom (id : Nat)
deriving DecidableEq, Repr, Inhabited

/-- The dataset handle a `ConvLearner` wraps: only the attributes this
module reads.  `id` is the object's identity, `sz` the image size, `nTrn`,
`nVal`, `nTst` the example counts of the train/validation/test partitions,
`hasTest` whether `test_dl` is truthy. -/
structure DataSet where
  id : Nat
  sz : Nat
  is_multi : Bool
  is_reg : Bool
  hasTest : Bool
  nTrn : Nat
  nVal : Nat
  nTst : Nat
deriving DecidableEq, Repr, Inhabited

/-- The dataset built by `ImageClassifierData.from_arrays` in `save_fc1`,
represented by the identity of the dataset it was built from and the row
counts of the wrapped arrays at wrap time. -/
structure FcData where
  srcId : Nat
  trnRows : Nat
  valRows : Nat
  tstRows : Option Nat
deriving DecidableEq, Repr, Inhabited

/-- The three on-disk activation arrays for the current cache key (the key
is the `(architecture name, xtra_cut, image size)` template of
`get_activations`; this structure models the files behind one key).  Each
file is `none` when absent, otherwise `some` its row count. -/
structure CacheFS where
  trn : Option Nat
  val : Option Nat
  tst : Option Nat
deriving DecidableEq, Repr, Inhabited

/-- The state of a `ConvLearner`.  `crit` is `none` before the constructor
assigns it; `frozenTo` records the argument of the last `freeze_to` call
(`none` before any); `activations` are the three open array handles,
represented by their row counts at open time. -/
structure ConvLearner where
  precompute : Bool
  data_ : DataSet
  models : ConvnetBuilder
  crit : Option Crit
  metrics : Option (List Metric)
  fcData : Option FcData
  activations : Option (Nat × Nat × Nat)
  frozenTo : Option Int
deriving DecidableEq, Repr, Inhabited

/-- What the `data` property returns: the original dataset in normal mode,
the cached-activation dataset (if built) in precompute mode. -/
inductive DataView
  | original (d : DataSet)
  | cached (fd : Option FcData)
deriving DecidableEq, Repr, Inhabited

/-- Property `ConvLearner.model`: the head alone in precompute mode, the
full model otherwise. -/
def ConvLearner.modelView (l : ConvLearner) : List Layer :=
  if l.precompute then l.models.fc_model else l.models.model

/-- Property `ConvLearner.data`. -/
def ConvLearner.dataView (l : ConvLearner) : DataView :=
  if l.precompute then DataView.cached l.fcData else DataView.original l.data_

/-- Resolution of the `data` property to a dataset whose attributes are
modelled here: in normal mode it is `data_`; in precompute mode `data` is
the external array-backed dataset whose attributes are outside this model,
so resolution yields `none`. -/
def ConvLearner.dataViewDS (l : ConvLearner) : Option DataSet :=
  if l.precompute then none else some l.data_

/-- Assignment to the `precompute` flag. -/
def ConvLearner.setPrecompute (l : ConvLearner) (b : Bool) : ConvLearner :=
  { l with precompute := b }

/-- `ConvLearner.freeze`: `self.freeze_to(-1)` (freeze everything up to the
last layer group; the base-class effect is recorded as the argument). -/
def ConvLearner.freezeL (l : ConvLearner) : ConvLearner :=
  { l with frozenTo := some (-1) }

/-- `ConvLearner.get_activations`: if the primary (train) file exists and
`force` is unset, open the three existing arrays (opening a missing
validation/test file is a framework error); otherwise create three empty
arrays on disk (`create_empty_bcolz` with write mode truncates to zero
rows). -/
def ConvLearner.get_activationsL (l : ConvLearner) (force : Bool)
    (fs : CacheFS) : Except Unit (ConvLearner × CacheFS) :=
  if fs.trn.isSome && !force then
    match fs.trn, fs.val, fs.tst with
    | some a, some v, some t => Except.ok ({ l with activations := some (a, v, t) }, fs)
    | _, _, _ => Except.error ()
  else
    Except.ok ({ l with activations := some (0, 0, 0) },
      { trn := some 0, val := some 0, tst := some 0 })

/-- `ConvLearner.save_fc1`: open or create the activation arrays; if the
train array is empty, run the truncated backbone over train and validation
(and test when present), appending one row per example; then wrap the
arrays as `fc_data`.  The returned `Bool` records whether the backbone ran
(`predict_to_bcolz` was invoked).  `self.data` is resolved through the
property; in precompute mode it is the external array-backed dataset,
outside this model. -/
def ConvLearner.save_fc1L (l : ConvLearner) (fs : CacheFS) :
    Except Unit (ConvLearner × CacheFS × Bool) :=
  match ConvLearner.dataViewDS l with
  | none => Except.error ()
  | some d =>
    match ConvLearner.get_activationsL l false fs with
    | Except.error e => Except.error e
    | Except.ok (l1, fs1) =>
      match l1.activations with
      | none => Except.error ()
      | some (a, v, t) =>
        if a = 0 then
          let a2 := a + d.nTrn
          let v2 := v + d.nVal
          let t2 := if d.hasTest then t + d.nTst else t
          Except.ok
            ({ l1 with activations := some (a2, v2, t2),
                       fcData := some ⟨d.id, a2, v2, if d.hasTest then some t2 else none⟩ },
             { trn := some a2, val := some v2, tst := some t2 }, true)
        else
          Except.ok
            ({ l1 with fcData := some ⟨d.id, a, v, if d.hasTest then some t else none⟩ },
             fs1, false)

/-- `ConvLearner.set_data`: store the new dataset (base-class `set_data`),
rebuild the activation cache via `save_fc1`, then `freeze`.  `fs` is the
cache-file state for the new dataset's key. -/
def ConvLearner.set_dataL (l : ConvLearner) (d : DataSet) (fs : CacheFS) :
    Except Unit (ConvLearner × CacheFS) :=
  let l1 := { l with data_ := d }
  match ConvLearner.save_fc1L l1 fs with
  | Except.error e => Except.error e
  | Except.ok (l2, fs2, _) => Except.ok (ConvLearner.freezeL l2, fs2)

/-- State of `ConvLearner.__init__` after `self.precompute = False` and the
base-class constructor: the dataset, models and supplied metrics are
stored, nothing else is set yet. -/
def ConvLearner.initStage1 (d : DataSet) (models : ConvnetBuilder)
    (metrics : Option (List Metric)) : ConvLearner :=
  { precompute := false, data_ := d, models := models, crit := none,
    metrics := metrics, fcData := none, activations := none, frozenTo := none }

/-- State after `self.crit = F.binary_cross_entropy if data.is_multi else
F.nll_loss`. -/
def ConvLearner.initStage2 (d : DataSet) (models : ConvnetBuilder)
    (metrics : Option (List Metric)) : ConvLearner :=
  let s1 := ConvLearner.initStage1 d models metrics
  let crit2 := if d.is_multi then Crit.binary_cross_entropy else Crit.nll_loss
  { s1 with crit := some crit2 }

/-- State after the `if data.is_reg: ... elif self.metrics is None: ...`
branch: regression overrides the loss with L1 and — being an `elif` —
skips the metric defaulting; otherwise absent metrics get the default.
(`self.data` resolves through the property; `self.precompute` is `False`
here, so it is the stored dataset.) -/
def ConvLearner.initStage3 (d : DataSet) (models : ConvnetBuilder)
    (metrics : Option (List Metric)) : ConvLearner :=
  let s2 := ConvLearner.initStage2 d models metrics
  let defMetrics := if s2.data_.is_multi then [Metric.accuracy_multi] else [Metric.accuracy]
  if d.is_reg then { s2 with crit := some Crit.l1_loss }
  else if s2.metrics = none then { s2 with metrics := some defMetrics }
  else s2

/-- `ConvLearner.__init__`, as the list of learner states after each
statement: after the base-class call (with `self.precompute = False`),
after the `crit` assignment, after the regression/metrics branch, after the
optional `save_fc1`, after `freeze`, and after the final
`self.precompute = precompute`.  A framework error inside `save_fc1`
aborts the constructor. -/
def ConvLearner.initTrace (d : DataSet) (models : ConvnetBuilder)
    (precompute : Bool) (metrics : Option (List Metric)) (fs : CacheFS) :
    Except Unit (List ConvLearner × CacheFS) :=
  let s1 := ConvLearner.initStage1 d models metrics
  let s2 := ConvLearner.initStage2 d models metrics
  let s3 := ConvLearner.initStage3 d models metrics
  match (if precompute then
           (ConvLearner.save_fc1L s3 fs).map (fun r => (r.1, r.2.1))
         else Except.ok (s3, fs)) with
  | Except.error e => Except.error e
  | Except.ok (s4, fs4) =>
    let s5 := ConvLearner.freezeL s4
    let s6 := { s5 with precompute := precompute }
    Except.ok ([s1, s2, s3, s4, s5, s6], fs4)

/-- `ConvLearner.__init__`: the final state (last element of the trace). -/
def ConvLearner.init (d : DataSet) (models : ConvnetBuilder)
    (precompute : Bool) (metrics : Option (List Metric)) (fs : CacheFS) :
    Except Unit (ConvLearner × CacheFS) :=
  match ConvLearner.initTrace d models precompute metrics fs with
  | Except.error e => Except.error e
  | Except.ok (tr, fs2) => Except.ok (tr.getLastD default, fs2)

/-- `ConvLearner.get_layer_groups`: delegates to the builder, with the
head-only flag taken from `precompute`. -/
def ConvLearner.get_layer_groupsL (l : ConvLearner) : List (List Layer) :=
  ConvnetBuilder.get_layer_groups l.models l.precompute

/-- Spec-side description of one head block, written after the spec's
words: batch-norm, then a dropout layer exactly when the rate is non-zero,
then linear, then the activation when one is given. -/
def fcBlockSpec (ni nfo : Nat) (p : Rat) (a : Option Actn) : List Layer :=
  [Layer.batchNorm1d ni] ++ (if p = 0 then [] else [Layer.dropout p]) ++
    [Layer.linear ni nfo] ++
    (match a with
     | some x => [Layer.act x]
     | none => [])

/-- Spec-side final activation: sigmoid for multi-label, log-softmax for
plain classification, absent for regression (regression takes
precedence). -/
def finalActnSpec (is_multi is_reg : Bool) : Option Actn :=
  if is_reg then none
  else if is_multi then some Actn.sigmoid else some Actn.logSoftmax

/-- Spec-side hidden part of the head: one ReLU block per hidden width,
consuming the dropout rates in order. -/
def hiddenBlocksSpec : Nat → List Nat → List Rat → List Layer
  | _, [], _ => []
  | ni, nfo :: rest, ps =>
    fcBlockSpec ni nfo (ps.headD 0) (some Actn.relu) ++
      hiddenBlocksSpec nfo rest ps.tail

/-- A concrete truncated backbone with eight children (the shape
`cut_model` produces for a resnet with `cut = 8`). -/
def sampleBackbone : List Layer :=
  (List.range 8).map Layer.backboneMod

/-- A concrete builder: `resnet34`, 10 classes, plain classification,
default dropout and hidden layers, 256 inferred backbone features. -/
def sampleBuilder : ConvnetBuilder :=
  ConvnetBuilder.build Arch.resnet34 10 false false PsArg.pnone none 0
    sampleBackbone 256

/-- A concrete plain-classification dataset. -/
def sampleData : DataSet :=
  { id := 7, sz := 224, is_multi := false, is_reg := false, hasTest := false,
    nTrn := 5, nVal := 3, nTst := 0 }

/-- A concrete regression dataset. -/
def sampleRegData : DataSet :=
  { sampleData with id := 8, is_reg := true }

/-- A concrete dataset with both the multi-label and the regression flag. -/
def sampleRegMultiData : DataSet :=
  { sampleData with id := 9, is_reg := true, is_multi := true }

/-- Cache files as a completed `save_fc1` run over `sampleData` leaves
them: all three present, train non-empty. -/
def sampleFS : CacheFS :=
  { trn := some 5, val := some 3, tst := some 0 }

/-- Cache files before any caching: all three absent. -/
def emptyFS : CacheFS :=
  { trn := none, val := none, tst := none }

/-- A concrete learner in normal mode over `sampleData`. -/
def sampleLearner : ConvLearner :=
  { precompute := false, data_ := sampleData, models := sampleBuilder,
    crit := none, metrics := none, fcData := none, activations := none,
    frozenTo := none }

/-- A second concrete dataset, used to exercise `set_data`. -/
def newData : DataSet :=
  { sampleData with id := 12, sz := 300, nTrn := 4, nVal := 2 }

/-- Cache files for `newData`'s key that already hold a non-empty cache. -/
def newFS : CacheFS :=
  { trn := some 4, val := some 2, tst := some 0 }

/-- The constructor trace for a concrete precomputing construction. -/
def wTraceP : List ConvLearner :=
  ((ConvLearner.initTrace sampleData sampleBuilder true none emptyFS).toOption.getD
    default).1

/-- The cache-file state that construction leaves behind. -/
def wFsP : CacheFS :=
  ((ConvLearner.initTrace sampleData sampleBuilder true none emptyFS).toOption.getD
    default).2

/-- The learner built over the both-flags dataset with explicit metrics. -/
def wInitRM : ConvLearner :=
  ((ConvLearner.init sampleRegMultiData sampleBuilder false
      (some [Metric.custom 0]) sampleFS).toOption.getD default).1

/-- The learner built over `sampleData` with no metrics supplied. -/
def wInitPlain : ConvLearner :=
  ((ConvLearner.init sampleData sampleBuilder false none sampleFS).toOption.getD
    default).1

/-! ## Theorems -/

/-- Every head block starts with its batch-norm layer. -/
theorem create_fc_layer_cons (ni nfo : Nat) (p : Rat) (a : Option Actn) :
    ∃ t, create_fc_layer ni nfo p a = Layer.batchNorm1d ni :: t := by
  unfold create_fc_layer
  cases a <;> by_cases h : p = 0 <;> simp [h]

/-- The imperative block builder agrees with the spec-side block shape. -/
theorem create_fc_layer_eq_block (ni nfo : Nat) (p : Rat) (a : Option Actn) :
    create_fc_layer ni nfo p a = fcBlockSpec ni nfo p a := by
  unfold create_fc_layer fcBlockSpec
  cases a <;> by_cases h : p = 0 <;> simp [h]

/-- The first module of a head block is its batch-norm. -/
theorem create_fc_layer_head (ni nfo : Nat) (p : Rat) (a : Option Actn) :
    (create_fc_layer ni nfo p a).head? = some (Layer.batchNorm1d ni) := by
  obtain ⟨t, ht⟩ := create_fc_layer_cons ni nfo p a
  simp [ht]

/-- The head starts with a batch-norm over the incoming feature width. -/
theorem get_fc_layers_head (nf : Nat) (xfc : List Nat) (ps : List Rat)
    (tm rg : Bool) (c : Nat) :
    (get_fc_layers nf xfc ps tm rg c).head? = some (Layer.batchNorm1d nf) := by
  cases xfc with
  | nil => simp [get_fc_layers, get_fc_layers_go, create_fc_layer_head]
  | cons nfo rest =>
    simp [get_fc_layers, get_fc_layers_go, create_fc_layer_head]

/-- The head is never the empty list of modules. -/
theorem get_fc_layers_ne_nil (nf : Nat) (xfc : List Nat) (ps : List Rat)
    (tm rg : Bool) (c : Nat) : get_fc_layers nf xfc ps tm rg c ≠ [] := by
  intro hnil
  have h := get_fc_layers_head nf xfc ps tm rg c
  rw [hnil] at h
  simp at h

/-- C1: for every registered backbone `f`, the first layer of the head
produced by `ConvnetBuilder.get_fc_layers` is a batch-norm whose input
width equals the builder's feature width `nf`, where `nf` is
`model_features[f]` when `f` is in that table and otherwise twice the
inferred feature count of the truncated backbone. -/
theorem head_input_width_matches_nf (f : Arch) (c : Nat) (tm rg : Bool)
    (ps : PsArg) (xfc : Option (List Nat)) (xc : Int) (layers : List Layer)
    (inferred : Nat) :
    (ConvnetBuilder.build f c tm rg ps xfc xc layers inferred).fc_model.head? =
      some (Layer.batchNorm1d
        (ConvnetBuilder.build f c tm rg ps xfc xc layers inferred).nf) ∧
    (ConvnetBuilder.build f c tm rg ps xfc xc layers inferred).nf =
      (match model_features f with
       | some w => w
       | none => 2 * inferred) := by
  constructor
  · exact get_fc_layers_head _ _ _ _ _ _
  · cases hf : model_features f <;>
      simp [ConvnetBuilder.build, hf, Nat.mul_comm]

/-- Indexing with a default agrees with the head of the dropped list. -/
theorem headD_drop_eq_getD {α : Type} (l : List α) (d : α) :
    ∀ i, (l.drop i).headD d = l.getD i d := by
  induction l with
  | nil => intro i; cases i <;> simp [List.getD]
  | cons a t ih =>
    intro i
    cases i with
    | zero => simp [List.getD]
    | succ j =>
      simp only [List.drop_succ_cons, List.getD_cons_succ]
      exact ih j

/-- Dropping one more element is taking the tail of the drop. -/
theorem tail_drop_eq {α : Type} (l : List α) :
    ∀ i, (l.drop i).tail = l.drop (i + 1) := by
  induction l with
  | nil => intro i; cases i <;> simp
  | cons a t ih =>
    intro i
    cases i with
    | zero => simp
    | succ j =>
      simp only [List.drop_succ_cons]
      exact ih j

/-- The loop of `get_fc_layers` produces exactly the spec-side blocks:
hidden ReLU blocks over the hidden widths, then the final block. -/
theorem get_fc_layers_go_spec (tm rg : Bool) (c : Nat) :
    ∀ (xfc : List Nat) (ni i : Nat) (ps : List Rat),
      get_fc_layers_go ps tm rg c ni i xfc =
        hiddenBlocksSpec ni xfc (ps.drop i) ++
          fcBlockSpec ((ni :: xfc).getLastD 0) c (ps.getLastD 0)
            (finalActnSpec tm rg)
  | [], ni, i, ps => by
    simp [get_fc_layers_go, hiddenBlocksSpec, finalActnSpec,
      create_fc_layer_eq_block, List.getLastD]
  | nfo :: rest, ni, i, ps => by
    have ih := get_fc_layers_go_spec tm rg c rest nfo (i + 1) ps
    simp [get_fc_layers_go, hiddenBlocksSpec, ih, create_fc_layer_eq_block,
      headD_drop_eq_getD, tail_drop_eq, List.getLastD]

/-- C4: each head block is, in order, batch-norm, then dropout exactly when
the rate is non-zero, then linear, then the activation when one is given;
hidden blocks use ReLU, and the final block's activation is sigmoid when
`is_multi` holds, log-softmax for plain classification, and absent when
`is_reg` holds (regression taking precedence). -/
theorem head_block_structure (nf : Nat) (xfc : List Nat) (ps : List Rat)
    (tm rg : Bool) (c : Nat) (hlen : ps.length = xfc.length + 1) :
    get_fc_layers nf xfc ps tm rg c =
      hiddenBlocksSpec nf xfc ps ++
        fcBlockSpec ((nf :: xfc).getLastD 0) c (ps.getLastD 0)
          (finalActnSpec tm rg) := by
  simpa [get_fc_layers] using get_fc_layers_go_spec tm rg c xfc nf 0 ps

/-- Witness for C4 at the default head configuration. -/
theorem head_block_structure_witness :
    get_fc_layers 512 [512] [1/4, 1/2] false false 10 =
      hiddenBlocksSpec 512 [512] [1/4, 1/2] ++
        fcBlockSpec ((512 :: [512]).getLastD 0) 10
          (([1/4, 1/2] : List Rat).getLastD 0) (finalActnSpec false false) :=
  head_block_structure 512 [512] [1/4, 1/2] false false 10 (by decide)

/-- The learning-rate split index of every registered architecture is
non-negative. -/
theorem lr_cut_nonneg (f : Arch) : 0 ≤ (model_meta f).2 := by
  cases f <;> decide

/-- Splitting with no indices yields the whole sequence as one group. -/
theorem split_single {α : Type} (seq : List α) :
    split_by_idxs seq ([] : List Int) = [seq] := by
  simp [split_by_idxs, split_by_idxs_go, pySliceFrom, pyClamp]

/-- Splitting `top ++ fc` at a non-negative index `L` within `top` and at
`fc.length` from the end yields the prefix of `top`, the rest of `top`, and
`fc`. -/
theorem split_three {α : Type} (top fc : List α) (L : Int)
    (h0 : 0 ≤ L) (hL : L.toNat ≤ top.length) (hfc : 0 < fc.length) :
    split_by_idxs (top ++ fc) [L, -(fc.length : Int)] =
      [top.take L.toNat, top.drop L.toNat, fc] := by
  have hlen : (top ++ fc).length = top.length + fc.length := by simp
  have hc0 : pyClamp (top ++ fc).length 0 = 0 := by simp [pyClamp]
  have hcL : pyClamp (top ++ fc).length L = L.toNat := by
    rw [pyClamp, if_neg (by omega)]
    simp [hlen]
    omega
  have hcn : pyClamp (top ++ fc).length (-(fc.length : Int)) = top.length := by
    rw [pyClamp, if_pos (by omega)]
    simp [hlen]
  have g1 : pySlice (top ++ fc) 0 L = top.take L.toNat := by
    rw [pySlice, hc0, hcL, List.drop_zero, List.take_append_eq_append_take]
    have hz : L.toNat - top.length = 0 := by omega
    simp [hz]
  have g2 : pySlice (top ++ fc) L (-(fc.length : Int)) = top.drop L.toNat := by
    rw [pySlice, hcL, hcn, List.take_left]
  have g3 : pySliceFrom (top ++ fc) (-(fc.length : Int)) = fc := by
    rw [pySliceFrom, hcn, List.drop_left]
  simp [split_by_idxs, split_by_idxs_go, g1, g2, g3]

/-- C5: `get_layer_groups(do_fc=True)` is the single group of all head
sublayers; `get_layer_groups(do_fc=False)` is exactly three groups — the
model's children split at the architecture's `lr_cut` index and at `n_fc`
sublayers from the end — i.e. backbone prefix, backbone remainder, head;
and `ConvLearner.get_layer_groups` selects between the two by the
`precompute` flag.  The hypothesis states that the configured split index
lies inside the truncated backbone, which is a property of the external
backbone's child count. -/
theorem layer_groups_split (f : Arch) (c : Nat) (tm rg : Bool) (ps : PsArg)
    (xfc : Option (List Nat)) (xc : Int) (layers : List Layer) (inferred : Nat)
    (b : ConvnetBuilder)
    (hb : b = ConvnetBuilder.build f c tm rg ps xfc xc layers inferred)
    (hcut : b.lr_cut.toNat ≤ b.top_model.length) :
    ConvnetBuilder.get_layer_groups b true = [b.fc_model] ∧
    ConvnetBuilder.get_layer_groups b false =
      [b.top_model.take b.lr_cut.toNat, b.top_model.drop b.lr_cut.toNat,
       b.fc_model] ∧
    ∀ l : ConvLearner, ConvLearner.get_layer_groupsL l =
      ConvnetBuilder.get_layer_groups l.models l.precompute := by
  refine ⟨?_, ?_, fun l => rfl⟩
  · simp [ConvnetBuilder.get_layer_groups, split_single]
  · have h0 : 0 ≤ b.lr_cut := by
      rw [hb]; exact lr_cut_nonneg f
    have hfc : 0 < b.fc_model.length := by
      rw [hb]
      exact List.length_pos.mpr (get_fc_layers_ne_nil _ _ _ _ _ _)
    have hm : b.model = b.top_model ++ b.fc_model := by rw [hb]; rfl
    have hn : b.n_fc = b.fc_model.length := by rw [hb]; rfl
    rw [ConvnetBuilder.get_layer_groups, if_neg (by simp), hm, hn]
    exact split_three b.top_model b.fc_model b.lr_cut h0 hcut hfc

/-- Witness for C5 at the concrete resnet34 builder and learner. -/
theorem layer_groups_split_witness :
    ConvnetBuilder.get_layer_groups sampleBuilder true = [sampleBuilder.fc_model] ∧
    ConvnetBuilder.get_layer_groups sampleBuilder false =
      [sampleBuilder.top_model.take sampleBuilder.lr_cut.toNat,
       sampleBuilder.top_model.drop sampleBuilder.lr_cut.toNat,
       sampleBuilder.fc_model] ∧
    ConvLearner.get_layer_groupsL sampleLearner =
      ConvnetBuilder.get_layer_groups sampleLearner.models
        sampleLearner.precompute := by
  have h := layer_groups_split Arch.resnet34 10 false false PsArg.pnone none 0
    sampleBackbone 256 sampleBuilder rfl (by decide)
  exact ⟨h.1, h.2.1, h.2.2 sampleLearner⟩

/-- C6: flipping the `precompute` flag only changes which objects the
`model` and `data` properties return — the head and the cached-activation
dataset when the flag is true, the full model and the original dataset when
false — and leaves the underlying full model, the head and the stored
dataset (and the built `fc_data`) unchanged. -/
theorem precompute_toggle_frame (l : ConvLearner) (b : Bool) :
    (l.setPrecompute b).models.model = l.models.model ∧
    (l.setPrecompute b).models.fc_model = l.models.fc_model ∧
    (l.setPrecompute b).data_ = l.data_ ∧
    (l.setPrecompute b).fcData = l.fcData ∧
    ConvLearner.modelView (l.setPrecompute b) =
      (if b then l.models.fc_model else l.models.model) ∧
    ConvLearner.dataView (l.setPrecompute b) =
      (if b then DataView.cached l.fcData else DataView.original l.data_) := by
  cases b <;>
    simp [ConvLearner.setPrecompute, ConvLearner.modelView, ConvLearner.dataView]

/-- C10: every falsy `ps` argument and falsy `xtra_fc` argument are
replaced by the defaults `[0.25, 0.5]` and `[512]`; in particular a scalar
dropout rate of 0 is falsy and still yields a head with the default
dropout layers, whereas a 0 supplied inside a non-empty list omits the
dropout layer of that block. -/
theorem falsy_defaults (f : Arch) (c : Nat) (tm rg : Bool) (ps : PsArg)
    (xfc : Option (List Nat)) (xc : Int) (layers : List Layer) (inferred : Nat)
    (h1 : ps.falsy = true) (h2 : xfc = none ∨ xfc = some []) :
    (ConvnetBuilder.build f c tm rg ps xfc xc layers inferred).ps = [1/4, 1/2] ∧
    (ConvnetBuilder.build f c tm rg ps xfc xc layers inferred).xtra_fc = [512] ∧
    Layer.dropout (1/4) ∈
      (ConvnetBuilder.build f c tm rg (PsArg.scalar 0) none xc layers
        inferred).fc_model ∧
    Layer.dropout (1/2) ∈
      (ConvnetBuilder.build f c tm rg (PsArg.scalar 0) none xc layers
        inferred).fc_model ∧
    (ConvnetBuilder.build f c tm rg (PsArg.list [0, 1/2]) none xc layers
        inferred).fc_model.take 3 =
      [Layer.batchNorm1d
         (ConvnetBuilder.build f c tm rg (PsArg.list [0, 1/2]) none xc layers
           inferred).nf,
       Layer.linear
         (ConvnetBuilder.build f c tm rg (PsArg.list [0, 1/2]) none xc layers
           inferred).nf 512,
       Layer.act Actn.relu] := by
  have h14 : (1/4 : Rat) ≠ 0 := by norm_num
  have h12 : (1/2 : Rat) ≠ 0 := by norm_num
  refine ⟨?_, ?_, ?_, ?_, ?_⟩
  · simp [ConvnetBuilder.build, resolvePs, h1, broadcastPs]
  · rcases h2 with h2 | h2 <;> simp [ConvnetBuilder.build, resolveXfc, h2]
  · cases tm <;> cases rg <;>
      simp [ConvnetBuilder.build, resolvePs, resolveXfc, broadcastPs,
        PsArg.falsy, get_fc_layers, get_fc_layers_go, create_fc_layer,
        h14, h12]
  · cases tm <;> cases rg <;>
      simp [ConvnetBuilder.build, resolvePs, resolveXfc, broadcastPs,
        PsArg.falsy, get_fc_layers, get_fc_layers_go, create_fc_layer,
        h14, h12]
  · simp [ConvnetBuilder.build, resolvePs, resolveXfc, broadcastPs,
      PsArg.falsy, get_fc_layers, get_fc_layers_go, create_fc_layer, h12]

/-- Witness for C10 at the concrete resnet34 builder inputs. -/
theorem falsy_defaults_witness :
    sampleBuilder.ps = [1/4, 1/2] ∧
    sampleBuilder.xtra_fc = [512] ∧
    Layer.dropout (1/4) ∈
      (ConvnetBuilder.build Arch.resnet34 10 false false (PsArg.scalar 0) none 0
        sampleBackbone 256).fc_model ∧
    Layer.dropout (1/2) ∈
      (ConvnetBuilder.build Arch.resnet34 10 false false (PsArg.scalar 0) none 0
        sampleBackbone 256).fc_model ∧
    (ConvnetBuilder.build Arch.resnet34 10 false false (PsArg.list [0, 1/2])
        none 0 sampleBackbone 256).fc_model.take 3 =
      [Layer.batchNorm1d
         (ConvnetBuilder.build Arch.resnet34 10 false false (PsArg.list [0, 1/2])
           none 0 sampleBackbone 256).nf,
       Layer.linear
         (ConvnetBuilder.build Arch.resnet34 10 false false (PsArg.list [0, 1/2])
           none 0 sampleBackbone 256).nf 512,
       Layer.act Actn.relu] :=
  falsy_defaults Arch.resnet34 10 false false PsArg.pnone none 0 sampleBackbone
    256 rfl (Or.inl rfl)

/-- Fields of the constructor state after the loss/metrics branch: the
flag, dataset, models, cache fields are untouched. -/
theorem initStage3_fields (d : DataSet) (m : ConvnetBuilder)
    (mets : Option (List Metric)) :
    (ConvLearner.initStage3 d m mets).precompute = false ∧
    (ConvLearner.initStage3 d m mets).data_ = d ∧
    (ConvLearner.initStage3 d m mets).models = m ∧
    (ConvLearner.initStage3 d m mets).fcData = none ∧
    (ConvLearner.initStage3 d m mets).frozenTo = none := by
  cases hr : d.is_reg <;> by_cases hm : mets = none <;>
    simp [ConvLearner.initStage3, ConvLearner.initStage2, ConvLearner.initStage1,
      hr, hm]

/-- The loss selected by the constructor: L1 for regression (overriding the
multi-label choice), else binary cross-entropy for multi-label, else
negative log-likelihood. -/
theorem initStage3_crit (d : DataSet) (m : ConvnetBuilder)
    (mets : Option (List Metric)) :
    (ConvLearner.initStage3 d m mets).crit =
      some (if d.is_reg then Crit.l1_loss
        else if d.is_multi then Crit.binary_cross_entropy
        else Crit.nll_loss) := by
  cases hr : d.is_reg <;> by_cases hm : mets = none <;>
    simp [ConvLearner.initStage3, ConvLearner.initStage2, ConvLearner.initStage1,
      hr, hm]

/-- The metrics after the constructor branch: defaulted only when none were
supplied and the task is not regression (the `elif` skips defaulting for
regression). -/
theorem initStage3_metrics (d : DataSet) (m : ConvnetBuilder)
    (mets : Option (List Metric)) :
    (ConvLearner.initStage3 d m mets).metrics =
      (if d.is_reg then mets
       else if mets = none then
         some (if d.is_multi then [Metric.accuracy_multi] else [Metric.accuracy])
       else mets) := by
  cases hr : d.is_reg <;> by_cases hm : mets = none <;>
    simp [ConvLearner.initStage3, ConvLearner.initStage2, ConvLearner.initStage1,
      hr, hm]

/-- When the primary cache file exists with a non-zero row count and all
three files are present, `save_fc1` opens and reuses them: the files are
untouched, the backbone is not run, and `fc_data` wraps the existing
rows. -/
theorem save_fc1L_reuse (l : ConvLearner) (fs : CacheFS) (n v t : Nat)
    (hp : l.precompute = false) (h1 : fs.trn = some n) (hn : n ≠ 0)
    (h2 : fs.val = some v) (h3 : fs.tst = some t) :
    ConvLearner.save_fc1L l fs =
      Except.ok
        ({ l with activations := some (n, v, t),
                  fcData := some ⟨l.data_.id, n, v,
                    if l.data_.hasTest then some t else none⟩ }, fs, false) := by
  simp [ConvLearner.save_fc1L, ConvLearner.dataViewDS, hp,
    ConvLearner.get_activationsL, h1, h2, h3, hn]

/-- Characterisation of a successful `save_fc1` in normal mode: the learner
fields other than `activations` and `fc_data` are preserved, `fc_data` is
built from the current dataset, the backbone runs exactly when the primary
cache file was absent or empty, and a run that reused the cache left the
files unchanged. -/
theorem save_fc1L_ok_char (l l2 : ConvLearner) (fs fs2 : CacheFS) (ran : Bool)
    (hp : l.precompute = false)
    (h : ConvLearner.save_fc1L l fs = Except.ok (l2, fs2, ran)) :
    l2.precompute = false ∧ l2.data_ = l.data_ ∧ l2.crit = l.crit ∧
    l2.metrics = l.metrics ∧ l2.models = l.models ∧ l2.frozenTo = l.frozenTo ∧
    l2.fcData.map (fun fd => fd.srcId) = some l.data_.id ∧
    (ran = true ↔ (fs.trn = none ∨ fs.trn = some 0)) ∧
    (ran = false → fs2 = fs) := by
  cases htrn : fs.trn with
  | none =>
    simp [ConvLearner.save_fc1L, ConvLearner.dataViewDS, hp,
      ConvLearner.get_activationsL, htrn] at h
    obtain ⟨h1, h2, h3⟩ := h
    subst h1 h2 h3
    simp [hp, htrn]
  | some n =>
    cases hval : fs.val with
    | none =>
      simp [ConvLearner.save_fc1L, ConvLearner.dataViewDS, hp,
        ConvLearner.get_activationsL, htrn, hval] at h
    | some v =>
      cases htst : fs.tst with
      | none =>
        simp [ConvLearner.save_fc1L, ConvLearner.dataViewDS, hp,
          ConvLearner.get_activationsL, htrn, hval, htst] at h
      | some t =>
        by_cases hn : n = 0
        · subst hn
          simp [ConvLearner.save_fc1L, ConvLearner.dataViewDS, hp,
            ConvLearner.get_activationsL, htrn, hval, htst] at h
          obtain ⟨h1, h2, h3⟩ := h
          subst h1 h2 h3
          simp [hp, htrn]
        · simp [ConvLearner.save_fc1L, ConvLearner.dataViewDS, hp,
            ConvLearner.get_activationsL, htrn, hval, htst, hn] at h
          obtain ⟨h1, h2, h3⟩ := h
          subst h1 h2 h3
          simp [hp, htrn, hn]

/-- C7: when the primary (train) activation file exists and is non-empty
and force is unset, `get_activations` opens and reuses the existing on-disk
arrays and `save_fc1` neither reruns the backbone nor writes rows (the
files are returned unchanged); only a forced request recreates (truncates)
the arrays. -/
theorem activation_cache_reuse (l : ConvLearner) (fs : CacheFS) (n v t : Nat)
    (hp : l.precompute = false) (h1 : fs.trn = some n) (hn : n ≠ 0)
    (h2 : fs.val = some v) (h3 : fs.tst = some t) :
    ConvLearner.get_activationsL l false fs =
      Except.ok ({ l with activations := some (n, v, t) }, fs) ∧
    ConvLearner.save_fc1L l fs =
      Except.ok
        ({ l with activations := some (n, v, t),
                  fcData := some ⟨l.data_.id, n, v,
                    if l.data_.hasTest then some t else none⟩ }, fs, false) ∧
    ConvLearner.get_activationsL l true fs =
      Except.ok ({ l with activations := some (0, 0, 0) },
        { trn := some 0, val := some 0, tst := some 0 }) := by
  refine ⟨?_, save_fc1L_reuse l fs n v t hp h1 hn h2 h3, ?_⟩
  · simp [ConvLearner.get_activationsL, h1, h2, h3]
  · simp [ConvLearner.get_activationsL]

/-- Witness for C7 at the concrete learner with a populated cache. -/
theorem activation_cache_reuse_witness :
    ConvLearner.get_activationsL sampleLearner false sampleFS =
      Except.ok ({ sampleLearner with activations := some (5, 3, 0) },
        sampleFS) ∧
    ConvLearner.save_fc1L sampleLearner sampleFS =
      Except.ok
        ({ sampleLearner with activations := some (5, 3, 0),
                              fcData := some ⟨7, 5, 3, none⟩ }, sampleFS,
         false) ∧
    ConvLearner.get_activationsL sampleLearner true sampleFS =
      Except.ok ({ sampleLearner with activations := some (0, 0, 0) },
        { trn := some 0, val := some 0, tst := some 0 }) :=
  activation_cache_reuse sampleLearner sampleFS 5 3 0 rfl rfl (by decide)
    rfl rfl

/-- Inversion of a successful construction: the final state is the frozen
fourth stage with the requested flag written last, where the fourth stage
is the third stage itself (no precompute) or the result of `save_fc1`
applied to it. -/
theorem init_ok_char (d : DataSet) (m : ConvnetBuilder) (pc : Bool)
    (mets : Option (List Metric)) (fs : CacheFS) (l : ConvLearner)
    (fs2 : CacheFS)
    (h : ConvLearner.init d m pc mets fs = Except.ok (l, fs2)) :
    ∃ s4 ran,
      ((pc = false ∧ s4 = ConvLearner.initStage3 d m mets ∧ fs2 = fs ∧
          ran = false) ∨
       (pc = true ∧ ConvLearner.save_fc1L (ConvLearner.initStage3 d m mets) fs =
          Except.ok (s4, fs2, ran))) ∧
      l = { ConvLearner.freezeL s4 with precompute := pc } := by
  cases pc with
  | false =>
    have hred : ConvLearner.init d m false mets fs =
        Except.ok
          ({ ConvLearner.freezeL (ConvLearner.initStage3 d m mets) with
              precompute := false }, fs) := rfl
    rw [hred] at h
    simp at h
    obtain ⟨hl, hf⟩ := h
    exact ⟨ConvLearner.initStage3 d m mets, false,
      Or.inl ⟨rfl, rfl, hf.symm, rfl⟩, hl.symm⟩
  | true =>
    rcases hs : ConvLearner.save_fc1L (ConvLearner.initStage3 d m mets) fs with
      e | ⟨s4, fs4, ran⟩
    · rw [ConvLearner.init, ConvLearner.initTrace, hs] at h
      simp [Except.map] at h
    · rw [ConvLearner.init, ConvLearner.initTrace, hs] at h
      simp [Except.map, List.getLastD] at h
      obtain ⟨hl, hf⟩ := h
      subst hf
      exact ⟨s4, ran, Or.inr ⟨rfl, rfl⟩, hl.symm⟩

/-- C2: the constructor sets the loss to binary cross-entropy for
multi-label datasets, L1 for regression, and negative log-likelihood
otherwise; when both flags are set the regression choice wins. -/
theorem crit_selection (d : DataSet) (m : ConvnetBuilder) (pc : Bool)
    (mets : Option (List Metric)) (fs : CacheFS) (l : ConvLearner)
    (fs2 : CacheFS)
    (h : ConvLearner.init d m pc mets fs = Except.ok (l, fs2)) :
    l.crit = some (if d.is_reg then Crit.l1_loss
      else if d.is_multi then Crit.binary_cross_entropy
      else Crit.nll_loss) := by
  obtain ⟨s4, ran, hcase, hl⟩ := init_ok_char d m pc mets fs l fs2 h
  subst hl
  rcases hcase with ⟨-, hs4, -, -⟩ | ⟨-, hsave⟩
  · subst hs4
    simp [ConvLearner.freezeL, initStage3_crit]
  · have hchar := save_fc1L_ok_char _ _ _ _ _ (initStage3_fields d m mets).1 hsave
    have hcrit := hchar.2.2.1
    simp [ConvLearner.freezeL, hcrit, initStage3_crit]

/-- Witness for C2 at the both-flags dataset: the regression loss wins. -/
theorem crit_selection_witness : wInitRM.crit = some Crit.l1_loss :=
  crit_selection sampleRegMultiData sampleBuilder false (some [Metric.custom 0])
    sampleFS wInitRM sampleFS rfl

/-- C3 counterexample: constructing over a regression dataset with no
metrics supplied leaves `metrics` unset (`None`), not the claimed default
plain accuracy: the `elif` skips metric defaulting whenever `is_reg`
holds. -/
theorem regression_gets_no_default_metric :
    (ConvLearner.init sampleRegData sampleBuilder false none
        sampleFS).toOption.map (fun r => r.1.metrics) = some none ∧
    (none : Option (List Metric)) ≠ some [Metric.accuracy] := by
  exact ⟨rfl, by decide⟩

/-- C3 amended: with no metrics supplied, the constructor installs the
default metric (multi-label accuracy for multi-label datasets, plain
accuracy otherwise) only when the dataset is not a regression task; for
regression the metrics remain unset. -/
theorem default_metric_unless_regression (d : DataSet) (m : ConvnetBuilder)
    (pc : Bool) (fs : CacheFS) (l : ConvLearner) (fs2 : CacheFS)
    (h : ConvLearner.init d m pc none fs = Except.ok (l, fs2)) :
    l.metrics = (if d.is_reg then none
      else some (if d.is_multi then [Metric.accuracy_multi]
        else [Metric.accuracy])) := by
  obtain ⟨s4, ran, hcase, hl⟩ := init_ok_char d m pc none fs l fs2 h
  subst hl
  rcases hcase with ⟨-, hs4, -, -⟩ | ⟨-, hsave⟩
  · subst hs4
    simp [ConvLearner.freezeL, initStage3_metrics]
  · have hchar := save_fc1L_ok_char _ _ _ _ _ (initStage3_fields d m none).1 hsave
    have hmet := hchar.2.2.2.1
    simp [ConvLearner.freezeL, hmet, initStage3_metrics]

/-- Witness for the amended C3 at the plain-classification dataset. -/
theorem default_metric_unless_regression_witness :
    wInitPlain.metrics = some [Metric.accuracy] :=
  default_metric_unless_regression sampleData sampleBuilder false sampleFS
    wInitPlain sampleFS rfl

/-- C9: every successful construction keeps the `precompute` field `False`
through every intermediate state and sets it to the requested value only
in the final state; the final state is frozen to the last layer group
(`freeze_to(-1)`), and when precompute was requested the cached-activation
dataset was built from the original dataset (whose identity it records). -/
theorem ctor_freeze_and_deferred_precompute (d : DataSet) (m : ConvnetBuilder)
    (pc : Bool) (mets : Option (List Metric)) (fs : CacheFS)
    (tr : List ConvLearner) (fs2 : CacheFS)
    (h : ConvLearner.initTrace d m pc mets fs = Except.ok (tr, fs2)) :
    tr.dropLast.all (fun s => !s.precompute) = true ∧
    (tr.getLastD default).precompute = pc ∧
    (tr.getLastD default).frozenTo = some (-1) ∧
    (pc = true →
      (tr.getLastD default).fcData.map (fun fd => fd.srcId) = some d.id) := by
  cases pc with
  | false =>
    have hred : ConvLearner.initTrace d m false mets fs =
        Except.ok
          ([ConvLearner.initStage1 d m mets, ConvLearner.initStage2 d m mets,
            ConvLearner.initStage3 d m mets, ConvLearner.initStage3 d m mets,
            ConvLearner.freezeL (ConvLearner.initStage3 d m mets),
            { ConvLearner.freezeL (ConvLearner.initStage3 d m mets) with
                precompute := false }], fs) := rfl
    rw [hred] at h
    simp at h
    obtain ⟨hl, -⟩ := h
    subst hl
    refine ⟨?_, rfl, rfl, by simp⟩
    simp [List.dropLast, ConvLearner.initStage1, ConvLearner.initStage2,
      ConvLearner.freezeL, (initStage3_fields d m mets).1]
  | true =>
    rcases hs : ConvLearner.save_fc1L (ConvLearner.initStage3 d m mets) fs with
      e | ⟨s4, fs4, ran⟩
    · rw [ConvLearner.initTrace, hs] at h
      simp [Except.map] at h
    · rw [ConvLearner.initTrace, hs] at h
      simp [Except.map] at h
      obtain ⟨hl, -⟩ := h
      subst hl
      have hchar := save_fc1L_ok_char _ _ _ _ _ (initStage3_fields d m mets).1 hs
      refine ⟨?_, rfl, rfl, fun _ => ?_⟩
      · simp [List.dropLast, ConvLearner.initStage1, ConvLearner.initStage2,
          ConvLearner.freezeL, (initStage3_fields d m mets).1, hchar.1]
      · have hfc := hchar.2.2.2.2.2.2.1
        have hdat := (initStage3_fields d m mets).2.1
        rw [hdat] at hfc
        exact hfc

/-- Witness for C9 at a concrete precomputing construction. -/
theorem ctor_freeze_witness :
    wTraceP.dropLast.all (fun s => !s.precompute) = true ∧
    (wTraceP.getLastD default).precompute = true ∧
    (wTraceP.getLastD default).frozenTo = some (-1) ∧
    (wTraceP.getLastD default).fcData.map (fun fd => fd.srcId) =
      some sampleData.id := by
  have h := ctor_freeze_and_deferred_precompute sampleData sampleBuilder true
    none emptyFS wTraceP wFsP rfl
  exact ⟨h.1, h.2.1, h.2.2.1, h.2.2.2 rfl⟩

/-- C8 counterexample: `set_data` with a dataset whose cache files already
exist non-empty does not recompute the activation cache — the `save_fc1`
step reuses the arrays (backbone flag `false`) and returns the files
unchanged — contradicting the claim that switching datasets recomputes the
cache before returning. -/
theorem set_data_reuses_existing_cache :
    (ConvLearner.save_fc1L { sampleLearner with data_ := newData }
        newFS).toOption.map (fun r => (r.2.1, r.2.2)) = some (newFS, false) ∧
    (ConvLearner.set_dataL sampleLearner newData newFS).toOption.map
        (fun r => r.2) = some newFS :=
  ⟨rfl, rfl⟩

/-- C8 amended: `set_data` stores the new dataset, runs the
activation-caching operation for it — rerunning the backbone exactly when
the new dataset's primary cache file is absent or empty, and reusing the
existing arrays otherwise — rebuilds `fc_data` from the new dataset, and
refreezes to the last layer group before returning. -/
theorem set_data_caches_and_refreezes (l : ConvLearner) (d : DataSet)
    (fs : CacheFS) (l2 : ConvLearner) (fs2 : CacheFS)
    (hp : l.precompute = false)
    (h : ConvLearner.set_dataL l d fs = Except.ok (l2, fs2)) :
    l2.data_ = d ∧ l2.frozenTo = some (-1) ∧
    (ConvLearner.save_fc1L { l with data_ := d } fs).map
        (fun r => (ConvLearner.freezeL r.1, r.2.1)) = Except.ok (l2, fs2) ∧
    (ConvLearner.save_fc1L { l with data_ := d } fs).map (fun r => r.2.2) =
      Except.ok (decide (fs.trn = none ∨ fs.trn = some 0)) ∧
    l2.fcData.map (fun fd => fd.srcId) = some d.id := by
  rcases hs : ConvLearner.save_fc1L { l with data_ := d } fs with
    e | ⟨l3, fs3, ran⟩
  · simp [ConvLearner.set_dataL, hs] at h
  · simp [ConvLearner.set_dataL, hs] at h
    obtain ⟨hl, hf⟩ := h
    subst hf
    have hchar := save_fc1L_ok_char { l with data_ := d } l3 fs fs3 ran
      (by simp [hp]) hs
    have hiff := hchar.2.2.2.2.2.2.2.1
    have hran : ran = decide (fs.trn = none ∨ fs.trn = some 0) := by
      cases ran with
      | false =>
        have hP : ¬(fs.trn = none ∨ fs.trn = some 0) := fun p => by
          simpa using hiff.mpr p
        rw [decide_eq_false hP]
      | true => rw [decide_eq_true (hiff.mp rfl)]
    refine ⟨?_, ?_, ?_, ?_, ?_⟩
    · rw [← hl]
      simpa [ConvLearner.freezeL] using hchar.2.1
    · rw [← hl]
      simp [ConvLearner.freezeL]
    · simp [Except.map, hl]
    · simp [Except.map, hran]
    · rw [← hl]
      have hfc := hchar.2.2.2.2.2.2.1
      simpa [ConvLearner.freezeL] using hfc

/-- Witness for the amended C8 at the concrete learner, new dataset and
pre-populated cache. -/
theorem set_data_caches_and_refreezes_witness :
    (((ConvLearner.set_dataL sampleLearner newData newFS).toOption.getD
        default).1).data_ = newData ∧
    (((ConvLearner.set_dataL sampleLearner newData newFS).toOption.getD
        default).1).frozenTo = some (-1) ∧
    (((ConvLearner.set_dataL sampleLearner newData newFS).toOption.getD
        default).1).fcData.map (fun fd => fd.srcId) = some newData.id := by
  have h := set_data_caches_and_refreezes sampleLearner newData newFS
    ((ConvLearner.set_dataL sampleLearner newData newFS).toOption.getD
      default).1
    ((ConvLearner.set_dataL sampleLearner newData newFS).toOption.getD
      default).2
    rfl rfl
  exact ⟨h.1, h.2.1, h.2.2.2.2⟩
